import Mathlib

/-!
Shallow embedding of the agentic-AI system found in `main_enhanced.py` and
`main.py`: the tiered API router (`APIIntegration`), the shared memory store
(`MemoryBus`), the agent lifecycle (`BaseAgent`), the multi-agent scenario
coordinator, and the maintenance passes of the two system loops.

Conventions of the embedding:
* Python dictionaries with a fixed key set become structures; dictionaries
  used as maps become association lists.
* `datetime.now()` is modelled as a logical clock: each call yields the next
  natural number tick, threaded explicitly.
* A remote HTTP call is modelled by a `RemoteOutcome` oracle value describing
  what the network did (a 200 response with a body, a non-200 status, or a
  raised exception); the Python code around the call is translated literally.
* Python exceptions become `Except String` results; a `try/except` block
  becomes a `match` on that result.
-/

namespace MyBolt

/-- Per-tier usage counters, one record per key of the Python dict
`self.stats` mapping each of camel_ai, llm7, local to requests/success/errors
in `APIIntegration.__init__` (main_enhanced.py lines 58-62). -/
structure TierStats where
  requests : Nat
  success : Nat
  errors : Nat
  deriving Repr, DecidableEq

/-- The three tiers of `APIIntegration.stats`: remote tier `camel_ai`,
remote tier `llm7`, and the terminal fallback `local`
(field name `localTier` because `local` is a Lean keyword). -/
structure Stats where
  camel_ai : TierStats
  llm7 : TierStats
  localTier : TierStats
  deriving Repr, DecidableEq

/-- The mutable state of `APIIntegration` relevant to routing: the two
reachability flags set by the startup probes, and the counters.
(The aiohttp session and the `APIConfig` URLs/keys only matter to the
actual network I/O, which the `RemoteOutcome` oracle stands for.) -/
structure APIIntegration where
  camel_ai_enabled : Bool
  llm7_enabled : Bool
  stats : Stats
  deriving Repr, DecidableEq

/-- Python `APIIntegration.__init__`: both flags start false and all counters zero;
the startup probes (`test_camel_ai` / `test_llm7`) may then set the flags,
so we take them as parameters. They never touch the counters. -/
def APIIntegration.init (camel llm7 : Bool) : APIIntegration :=
  { camel_ai_enabled := camel
    llm7_enabled := llm7
    stats :=
      { camel_ai := { requests := 0, success := 0, errors := 0 }
        llm7 := { requests := 0, success := 0, errors := 0 }
        localTier := { requests := 0, success := 0, errors := 0 } } }

/-- The `AgentConfig` dataclass (main_enhanced.py lines 39-48): the fields the
router and agents read. -/
structure AgentConfig where
  name : String
  type_ : String
  capabilities : List String
  api_preference : String
  deriving Repr, DecidableEq

/-- What the network did for one remote HTTP POST: a 200 response whose
parsed body has the expected shape and yields `content` (the opaque usage
payload is not modelled); a 200 response whose body parses as JSON but
lacks the expected keys, so that the subscript chain on `data` raises
(`msg` is the Python exception text, e.g. the `KeyError` rendering); a
non-200 status code; or an exception raised during the request or the body
parse itself. -/
inductive RemoteOutcome where
  | ok (content : String)
  | okMalformed (msg : String)
  | httpError (status : Nat)
  | exn (msg : String)
  deriving Repr, DecidableEq

/-- The `RemoteOutcome` values that make the surrounding `try` block fail.
A malformed 200 body fails too: the subscript on `data` raises inside the
`try` after the success counter was already incremented. -/
def RemoteOutcome.isFail : RemoteOutcome → Bool
  | .ok _ => false
  | .okMalformed _ => true
  | .httpError _ => true
  | .exn _ => true

/-- The outcome in which a 200 response carries a body without the expected
keys, the one path on which a single call increments both the success and
the error counter of a tier. -/
def RemoteOutcome.isMalformed : RemoteOutcome → Bool
  | .okMalformed _ => true
  | _ => false

/-- The successful return dictionary of `use_camel_ai` / `use_llm7` /
`use_local`: always `success: True` plus content, the api actually used and
the model string. The `usage` payload is opaque and not modelled. -/
structure GenResult where
  success : Bool
  content : String
  api_used : String
  model : String
  deriving Repr, DecidableEq

/-- Python `APIIntegration.select_api` (main_enhanced.py lines 134-148), a literal
translation of the if/elif/else chain. -/
def select_api (s : APIIntegration) (preference : String) : String :=
  if preference = "camel" ∧ s.camel_ai_enabled then
    "camel_ai"
  else if preference = "llm7" ∧ s.llm7_enabled then
    "llm7"
  else if preference = "auto" then
    if s.camel_ai_enabled then "camel_ai"
    else if s.llm7_enabled then "llm7"
    else "local"
  else
    "local"

/-- Python `APIIntegration.use_camel_ai` (main_enhanced.py lines 150-193):
increment `requests`; on a 200 response increment `success` (line 180) and
then build the return dict, whose evaluation of
`data[choices][0][message][content]` (line 183) raises when the body lacks
the expected keys — that exception reaches the outer `except` (line 191),
which increments `errors` AFTER `success` was already incremented and
re-raises with the `Camel AI request failed:` prefix; on a non-200 status
raise `HTTP <status>`; on a request/parse exception the `except` likewise
increments `errors` and re-raises. So a malformed 200 body increments both
counters in one call. -/
def use_camel_ai (s : APIIntegration) (outcome : RemoteOutcome) :
    APIIntegration × Except String GenResult :=
  let s := { s with stats.camel_ai.requests := s.stats.camel_ai.requests + 1 }
  match outcome with
  | .ok content =>
      ({ s with stats.camel_ai.success := s.stats.camel_ai.success + 1 },
       .ok { success := true, content := content, api_used := "camel_ai"
             model := "gpt-3.5-turbo" })
  | .okMalformed msg =>
      ({ s with stats.camel_ai.success := s.stats.camel_ai.success + 1
                stats.camel_ai.errors := s.stats.camel_ai.errors + 1 },
       .error ("Camel AI request failed: " ++ msg))
  | .httpError status =>
      ({ s with stats.camel_ai.errors := s.stats.camel_ai.errors + 1 },
       .error ("Camel AI request failed: HTTP " ++ toString status))
  | .exn msg =>
      ({ s with stats.camel_ai.errors := s.stats.camel_ai.errors + 1 },
       .error ("Camel AI request failed: " ++ msg))

/-- Python `APIIntegration.use_llm7` (main_enhanced.py lines 195-230),
identical counter discipline with the llm7 tier and error prefix: here too
`success` is incremented (line 217) before the return dict evaluates
`data[choices][0][text]` (line 220), so a malformed 200 body reaches the
`except` (line 229) and additionally increments `errors`. -/
def use_llm7 (s : APIIntegration) (outcome : RemoteOutcome) :
    APIIntegration × Except String GenResult :=
  let s := { s with stats.llm7.requests := s.stats.llm7.requests + 1 }
  match outcome with
  | .ok content =>
      ({ s with stats.llm7.success := s.stats.llm7.success + 1 },
       .ok { success := true, content := content, api_used := "llm7"
             model := "llm7-medium" })
  | .okMalformed msg =>
      ({ s with stats.llm7.success := s.stats.llm7.success + 1
                stats.llm7.errors := s.stats.llm7.errors + 1 },
       .error ("LLM7 request failed: " ++ msg))
  | .httpError status =>
      ({ s with stats.llm7.errors := s.stats.llm7.errors + 1 },
       .error ("LLM7 request failed: HTTP " ++ toString status))
  | .exn msg =>
      ({ s with stats.llm7.errors := s.stats.llm7.errors + 1 },
       .error ("LLM7 request failed: " ++ msg))

/-- Python `generate_code_response` (main_enhanced.py lines 264-281), the canned
text returned for the `coding` / `nextjs` capability bucket. -/
def generate_code_response : String :=
  "I can help with coding tasks. Based on your request, here\x27s my approach:\n\n1. Analyze the requirements\n2. Design the solution architecture\n3. Implement with best practices\n4. Add error handling and testing\n5. Provide documentation\n\nFor Next.js projects, I can create:\n- Component structures\n- API routes\n- State management\n- Styling solutions\n- Deployment configurations\n\nWould you like me to proceed with a specific implementation?"

/-- Python `generate_design_response` (main_enhanced.py lines 283-300). -/
def generate_design_response : String :=
  "I can assist with UI/UX design tasks:\n\nDesign Approach:\n- User-centered design principles\n- Modern, responsive layouts\n- Accessibility considerations\n- Performance optimization\n- Cross-platform compatibility\n\nDesign Systems:\n- Material Design\n- Tailwind CSS\n- Custom design tokens\n- Component libraries\n\nI can create wireframes, prototypes, and design specifications. What specific design challenge can I help with?"

/-- Python `generate_security_response` (main_enhanced.py lines 302-320). -/
def generate_security_response : String :=
  "Security analysis and recommendations:\n\nSecurity Framework:\n- Authentication & Authorization (JWT, OAuth)\n- Data encryption (AES-256, TLS)\n- Input validation and sanitization\n- CSRF and XSS protection\n- Rate limiting and DDoS protection\n\nBest Practices:\n- Zero-trust architecture\n- Least privilege principle\n- Regular security audits\n- Secure coding practices\n- Incident response planning\n\nWould you like me to perform a security assessment or implement specific security measures?"

/-- Python `generate_agent_response` (main_enhanced.py lines 322-340). -/
def generate_agent_response : String :=
  "Agent Creation and Management:\n\nI can create specialized agents with:\n- Custom capabilities and skills\n- Specific roles and responsibilities\n- Autonomous operation modes\n- Learning and adaptation features\n- Collaboration protocols\n\nAgent Types Available:\n- Development agents (Frontend, Backend, DevOps)\n- Design agents (UI/UX, Graphics, Content)\n- Security agents (Monitoring, Testing, Compliance)\n- Data agents (Analysis, Processing, Visualization)\n- Business agents (Strategy, Marketing, Finance)\n\nWhat type of agent would you like me to create?"

/-- Python `generate_general_response` (main_enhanced.py lines 342-353). -/
def generate_general_response : String :=
  "I\x27m here to help with a wide range of tasks using local AI processing:\n\nCapabilities:\n- Problem analysis and solution design\n- Information processing and synthesis\n- Task planning and execution\n- Quality control and optimization\n- Communication and collaboration\n\nI can adapt my responses based on your specific needs while maintaining high standards of accuracy and helpfulness. How can I assist you further?"

/-- Python `APIIntegration.use_local` (main_enhanced.py lines 232-262): increment
`requests`, build the response text from the agent capabilities, increment
`success` and return the dict. The `try` body is pure string formatting on
well-typed fields, so the `except Exception` branch (which would increment
`errors` and re-raise) is unreachable and `use_local` is total. -/
def use_local (s : APIIntegration) (prompt : String) (cfg : AgentConfig) :
    APIIntegration × GenResult :=
  let s := { s with stats.localTier.requests := s.stats.localTier.requests + 1 }
  let response := "[" ++ cfg.name ++ "] Processing: " ++ prompt ++ "\n\n" ++
    (if cfg.capabilities.contains "coding" ∨ cfg.capabilities.contains "nextjs" then
      generate_code_response
    else if cfg.capabilities.contains "ui_design" then
      generate_design_response
    else if cfg.capabilities.contains "security" then
      generate_security_response
    else if cfg.capabilities.contains "agent_creation" then
      generate_agent_response
    else
      generate_general_response)
  ({ s with stats.localTier.success := s.stats.localTier.success + 1 },
   { success := true, content := response, api_used := "local", model := "local-ai" })

/-- Python `APIIntegration.generate_response` (main_enhanced.py lines 116-132):
resolve the preference with `select_api`, call the selected tier, and on any
exception from a remote tier fall back to one `use_local` call. The two
oracle arguments say what the network would do if the corresponding remote
tier were called. -/
def generate_response (s : APIIntegration) (camelOutcome llm7Outcome : RemoteOutcome)
    (prompt : String) (cfg : AgentConfig) : APIIntegration × GenResult :=
  let api_to_use := select_api s cfg.api_preference
  if api_to_use = "camel_ai" then
    match use_camel_ai s camelOutcome with
    | (s, .ok r) => (s, r)
    | (s, .error _) => use_local s prompt cfg
  else if api_to_use = "llm7" then
    match use_llm7 s llm7Outcome with
    | (s, .ok r) => (s, r)
    | (s, .error _) => use_local s prompt cfg
  else
    use_local s prompt cfg

/-- The task dictionary handed to `execute_task`; `create_task_prompt` reads
`type`, `description` and `context` through `dict.get` with defaults, so the
fields are optional. The context dict is kept as an opaque rendered string
(the f-string interpolates its `repr`). -/
structure TaskDict where
  type_ : Option String
  description : Option String
  context : Option String
  deriving Repr, DecidableEq

/-- One entry of `BaseAgent.conversations` (main_enhanced.py lines 548-554):
the full exchange appended by a successful `execute_task`. -/
structure Conversation where
  task : TaskDict
  prompt : String
  result : GenResult
  processed : String
  timestamp : Nat
  deriving Repr, DecidableEq

/-- The mutable runtime state of a `BaseAgent` (main_enhanced.py lines
505-513). `main.py` agents carry the same fields except `conversations`,
which only the enhanced class has; for the base system the field simply
stays empty. -/
structure AgentState where
  config : AgentConfig
  status : String
  tasks_completed : Nat
  last_activity : Nat
  errors : List String
  conversations : List Conversation
  deriving Repr, DecidableEq

/-- Python `BaseAgent.__init__`: status `initialized`, zero tasks, empty logs. -/
def AgentState.fresh (cfg : AgentConfig) (now : Nat) : AgentState :=
  { config := cfg
    status := "initialized"
    tasks_completed := 0
    last_activity := now
    errors := []
    conversations := [] }

/-- Python `BaseAgent.initialize` (main_enhanced.py lines 515-527): set status to
`initializing`, run the type-specific `_setup` hook (whose observable
behaviour — returning or raising — is the `setupResult` argument); on
success set status `active` and return `True`; on an exception set status
`error`, append the exception text to `errors` and return `False`. -/
def BaseAgent.initializeAgent (a : AgentState) (setupResult : Except String Unit) :
    AgentState × Bool :=
  let a := { a with status := "initializing" }
  match setupResult with
  | .ok _ => ({ a with status := "active" }, true)
  | .error e => ({ a with status := "error", errors := a.errors ++ [e] }, false)

/-- Python `BaseAgent.create_task_prompt` (main_enhanced.py lines 563-573),
the f-string with its `dict.get` defaults. -/
def create_task_prompt (a : AgentState) (task : TaskDict) : String :=
  "\nTask: " ++ task.type_.getD "general" ++
  "\nDescription: " ++ task.description.getD "No description provided" ++
  "\nContext: " ++ task.context.getD "\x7b\x7d" ++
  "\nAgent: " ++ a.config.name ++
  "\nCapabilities: " ++ String.intercalate ", " a.config.capabilities ++
  "\n\nPlease process this task and provide a detailed response.\n"

/-- The dictionary `execute_task` returns: either
`(status: success, result, api_used)` or `(status: error, error)`. -/
inductive TaskResult where
  | success (result : String) (api_used : String)
  | error (e : String)
  deriving Repr, DecidableEq

/-- Python `BaseAgent.execute_task` (main_enhanced.py lines 533-561). The body
first updates `last_activity`, then builds the prompt (total), then awaits
`generate_response`. That call is the only statement in the `try` block
that can raise: everything after it (`_process_task_result` reading
`result[content]`, the counter increment, the `conversations.append`, and
the result dict reading `result[api_used]`) is total because every
`generate_response` return value carries both keys. Its observable
behaviour is the `genOutcome` argument; the `except` branch appends the
exception text to `errors` and returns the error dict. -/
def execute_task (a : AgentState) (now : Nat) (task : TaskDict)
    (genOutcome : Except String GenResult) : AgentState × TaskResult :=
  let a := { a with last_activity := now }
  let prompt := create_task_prompt a task
  match genOutcome with
  | .error e =>
      ({ a with errors := a.errors ++ [e] }, .error e)
  | .ok result =>
      let processed := result.content
      let a := { a with
        tasks_completed := a.tasks_completed + 1
        conversations := a.conversations ++
          [{ task := task, prompt := prompt, result := result
             processed := processed, timestamp := now + 1 }] }
      (a, .success processed result.api_used)

/-- Python list slicing `xs[-n:]`: the last `n` elements (the whole list
when it is shorter than `n`). -/
def takeLast (n : Nat) (xs : List α) : List α :=
  xs.drop (xs.length - n)

/-- Body of `EnhancedAgenticAISystem.system_maintenance` (main_enhanced.py
lines 820-825) for one agent: if `len(conversations) > 20`, keep
`conversations[-10:]`. It does not touch the error log. -/
def enhanced_maintenance (a : AgentState) : AgentState :=
  if a.conversations.length > 20 then
    { a with conversations := takeLast 10 a.conversations }
  else
    a

/-- Body of `AgenticAISystem.system_maintenance` (main.py lines 453-458)
for one agent: if `len(errors) > 10`, keep `errors[-5:]`. It does not touch
the conversation history. -/
def base_maintenance (a : AgentState) : AgentState :=
  if a.errors.length > 10 then
    { a with errors := takeLast 5 a.errors }
  else
    a

/-- One maintenance pass of the enhanced system loop: the trim applied to
every agent in `self.agents.values()`. -/
def enhanced_maintenance_pass (agents : List AgentState) : List AgentState :=
  agents.map enhanced_maintenance

/-- One maintenance pass of the base system loop. -/
def base_maintenance_pass (agents : List AgentState) : List AgentState :=
  agents.map base_maintenance

/-! ## Memory bus -/

/-- A Python runtime value as far as the `MemoryBus` is concerned, with
enough constructors to exercise `type(value).__name__`. -/
inductive PyValue where
  | int (n : Int)
  | str (s : String)
  | bool (b : Bool)
  | pyNone
  | list (xs : List PyValue)
  deriving Repr

/-- Python `type(value).__name__` for the modelled values. -/
def PyValue.typeName : PyValue → String
  | .int _ => "int"
  | .str _ => "str"
  | .bool _ => "bool"
  | .pyNone => "NoneType"
  | .list _ => "list"

/-- The record `MemoryBus.store` writes under each key
(main_enhanced.py lines 491-495). -/
structure MemoryEntry where
  value : PyValue
  timestamp : Nat
  type_ : String
  deriving Repr

/-- Python dict assignment `d[k] = v` on an association list: overwrite the
existing binding or append a new one. -/
def dictSet (k : String) (v : MemoryEntry) :
    List (String × MemoryEntry) → List (String × MemoryEntry)
  | [] => [(k, v)]
  | (k2, v2) :: rest =>
      if k2 = k then (k, v) :: rest else (k2, v2) :: dictSet k v rest

/-- Python `MemoryBus.data` (`self.data = dict()`); the subscriber map and the lock
are not needed for the store/retrieve contract. -/
structure MemoryBus where
  data : List (String × MemoryEntry)
  deriving Repr

/-- Python `MemoryBus.store` (main_enhanced.py lines 488-495): overwrite the entry
for `key` with the value, the current time and `type(value).__name__`. -/
def MemoryBus.store (m : MemoryBus) (now : Nat) (key : String) (value : PyValue) :
    MemoryBus :=
  { data := dictSet key
      { value := value, timestamp := now, type_ := value.typeName } m.data }

/-- Python `MemoryBus.retrieve` (main_enhanced.py lines 497-500):
`self.data.get(key, dict()).get(value)` — the stored value, or Python
`None` when the key is absent. -/
def MemoryBus.retrieve (m : MemoryBus) (key : String) : PyValue :=
  match m.data.lookup key with
  | some entry => entry.value
  | none => PyValue.pyNone

/-! ## Scenario coordinator -/

/-- Python `str(KeyError(k))` — what `str(e)` yields when a dict access raises. -/
def keyErrorText (k : String) : String := "\x27" ++ k ++ "\x27"

/-- Python dict subscript `d[k]` on an optional field: the value, or a
raised `KeyError` when the key is absent. -/
def keyGet (v : Option α) (k : String) : Except String α :=
  match v with
  | some x => .ok x
  | none => .error (keyErrorText k)

/-- The scenario dictionary: `create_multi_agent_scenario` reads `title` and
`description` by plain subscript (raising on absence) and `rounds` through
`scenario.get(rounds, 3)`. -/
structure ScenarioDict where
  title : Option String
  description : Option String
  rounds : Option Nat
  deriving Repr, DecidableEq

/-- A participant dictionary: `name` and `role` are read by plain subscript,
`type` and `capabilities` through `dict.get` with defaults. -/
structure ScenarioAgentDict where
  name : Option String
  role : Option String
  type_ : Option String
  capabilities : Option (List String)
  deriving Repr, DecidableEq

/-- One transcript entry appended by the scenario loops
(main_enhanced.py lines 394-401 and 440-447). -/
structure Message where
  round : Nat
  agent : String
  role : String
  content : String
  api_used : String
  timestamp : Nat
  deriving Repr, DecidableEq

/-- The session dictionary built by `create_multi_agent_scenario` /
`simulate_local_scenario`: id and start time are clock ticks, `error` is
the key added only on the exception path, `end_time` only on completion. -/
structure ScenarioSession where
  id : Nat
  scenario : ScenarioDict
  agents : List ScenarioAgentDict
  messages : List Message
  status : String
  error : Option String
  start_time : Nat
  end_time : Option Nat
  deriving Repr, DecidableEq

/-- Python `range(n)` as the list `[0, 1, ..., n-1]`, built in iteration
order. -/
def pyRange : Nat → List Nat
  | 0 => []
  | n + 1 => pyRange n ++ [n]

/-- A definite stand-in for `json.dumps(messages[-3:], default=str)` in the
role-aware prompt. The exact serialization text matters to no claim (the
prompt only ever reaches the remote-call oracle or the local fallback
text), so a simple structural rendering is used. -/
def renderMessage (m : Message) : String :=
  "(" ++ toString m.round ++ ", " ++ m.agent ++ ", " ++ m.role ++ ", " ++
    m.content ++ ", " ++ m.api_used ++ ")"

/-- The `Previous messages:` fragment: the last three transcript entries. -/
def renderLast3 (ms : List Message) : String :=
  "[" ++ String.intercalate ", " ((takeLast 3 ms).map renderMessage) ++ "]"

/-- One iteration of the inner loop of `create_multi_agent_scenario`
(main_enhanced.py lines 377-401): build the role-aware prompt (subscripting
`scenario[description]`, `agent[role]`, `agent[name]` — each may raise),
build the `AgentConfig` with preference `camel`, call `generate_response`,
and produce the transcript entry. A raise leaves the router state untouched
because every fallible access precedes the `generate_response` call. The
`outcome` oracle is passed for both remote slots; with `camel_ai_enabled`
true and preference `camel` only the camel slot is ever consulted. -/
def scenario_turn (st : APIIntegration) (outcome : RemoteOutcome)
    (scn : ScenarioDict) (agent : ScenarioAgentDict) (round_num : Nat)
    (prev : List Message) (clock : Nat) :
    Except String (APIIntegration × Message) := do
  let descr ← keyGet scn.description "description"
  let role ← keyGet agent.role "role"
  let name ← keyGet agent.name "name"
  let prompt :=
    "Multi-agent scenario: " ++ descr ++
    "\n                    Your role: " ++ role ++
    "\n                    Round: " ++ toString (round_num + 1) ++
    "\n                    Previous messages: " ++ renderLast3 prev ++
    "\n                    \n                    Respond as " ++ name ++
    " would in this scenario."
  let cfg : AgentConfig :=
    { name := name
      type_ := agent.type_.getD "collaborator"
      capabilities := agent.capabilities.getD []
      api_preference := "camel" }
  let res := generate_response st outcome outcome prompt cfg
  .ok (res.1,
    { round := round_num + 1
      agent := name
      role := role
      content := res.2.content
      api_used := res.2.api_used
      timestamp := clock })

/-- The inner `for agent in agents` loop of `create_multi_agent_scenario`
for one round: runs turns left to right, appending each message to the
session transcript; the first raise stops the loop and reports the
exception text, keeping the messages already appended (the session list is
mutated in place in the source). -/
def run_agents (st : APIIntegration) (oracle : Nat → Nat → RemoteOutcome)
    (scn : ScenarioDict) (round_num : Nat) (idx : Nat)
    (agents : List ScenarioAgentDict) (acc : List Message) (clock : Nat) :
    APIIntegration × List Message × Nat × Option String :=
  match agents with
  | [] => (st, acc, clock, none)
  | agent :: rest =>
      match scenario_turn st (oracle round_num idx) scn agent round_num acc clock with
      | .error e => (st, acc, clock, some e)
      | .ok (st2, msg) =>
          run_agents st2 oracle scn round_num (idx + 1) rest (acc ++ [msg]) (clock + 1)

/-- The outer `for round_num in range(scenario.get(rounds, 3))` loop of
`create_multi_agent_scenario`. -/
def run_rounds (st : APIIntegration) (oracle : Nat → Nat → RemoteOutcome)
    (scn : ScenarioDict) (rounds : List Nat)
    (agents : List ScenarioAgentDict) (acc : List Message) (clock : Nat) :
    APIIntegration × List Message × Nat × Option String :=
  match rounds with
  | [] => (st, acc, clock, none)
  | r :: rest =>
      match run_agents st oracle scn r 0 agents acc clock with
      | (st2, acc2, clock2, some e) => (st2, acc2, clock2, some e)
      | (st2, acc2, clock2, none) => run_rounds st2 oracle scn rest agents acc2 clock2

/-- The five canned rhetorical openers of `simulate_local_scenario`
(main_enhanced.py lines 428-434). -/
def localResponses : List String :=
  [ "I believe we should take a systematic approach to this challenge..."
  , "From my analysis, the key factors to consider are..."
  , "I propose we divide the problem into manageable components..."
  , "Building on the previous points, I would add..."
  , "Let me offer an alternative perspective on this issue..." ]

/-- One iteration of the inner loop of `simulate_local_scenario`
(main_enhanced.py lines 437-447): the canned opener indexed by
`round_num % len(responses)` suffixed with the participant name. The
subscripts `agent[name]` (in the response text, then again in the appended
dict) and `agent[role]` may raise, and here no `try/except` surrounds the
loops, so a raise propagates out of the function. -/
def simulate_turn (agent : ScenarioAgentDict) (round_num : Nat) (clock : Nat) :
    Except String Message := do
  let name ← keyGet agent.name "name"
  let response :=
    (localResponses.getD (round_num % localResponses.length) "") ++
    " (Local simulation by " ++ name ++ ")"
  let role ← keyGet agent.role "role"
  .ok { round := round_num + 1
        agent := name
        role := role
        content := response
        api_used := "local_simulation"
        timestamp := clock }

/-- Inner participant loop of `simulate_local_scenario`; a raise discards
the accumulated messages (they live in a local `session` dict that is never
returned when the exception propagates). -/
def sim_agents (round_num : Nat) (agents : List ScenarioAgentDict)
    (acc : List Message) (clock : Nat) : Except String (List Message × Nat) :=
  match agents with
  | [] => .ok (acc, clock)
  | agent :: rest => do
      let msg ← simulate_turn agent round_num clock
      sim_agents round_num rest (acc ++ [msg]) (clock + 1)

/-- Outer round loop of `simulate_local_scenario`. -/
def sim_rounds (rounds : List Nat) (agents : List ScenarioAgentDict)
    (acc : List Message) (clock : Nat) : Except String (List Message × Nat) :=
  match rounds with
  | [] => .ok (acc, clock)
  | r :: rest => do
      let (acc2, clock2) ← sim_agents r agents acc clock
      sim_rounds rest agents acc2 clock2

/-- Python `APIIntegration.simulate_local_scenario` (main_enhanced.py lines
416-452): build the session, run every round and participant in order
appending one message each, then mark the session `completed` with an end
timestamp. An exception mid-loop propagates (`.error`) and no session is
returned. `t0` is the clock tick at entry (session id and start time). -/
def simulate_local_scenario (t0 : Nat) (scn : ScenarioDict)
    (agents : List ScenarioAgentDict) : Except String ScenarioSession := do
  let (msgs, clock) ← sim_rounds (pyRange (scn.rounds.getD 3)) agents [] (t0 + 1)
  .ok { id := t0
        scenario := scn
        agents := agents
        messages := msgs
        status := "completed"
        error := none
        start_time := t0
        end_time := some clock }

/-- Python `APIIntegration.create_multi_agent_scenario` (main_enhanced.py lines
355-414): when `camel_ai_enabled` is false, delegate to the local
simulation. Otherwise log the title (a pre-`try` subscript whose raise
propagates), build the session, run the rounds inside `try`; on completion
set status `completed` with an end timestamp, on a caught exception set
status `error` and record the exception text, keeping the messages appended
so far. Returns the updated router state alongside the session. -/
def create_multi_agent_scenario (st : APIIntegration)
    (oracle : Nat → Nat → RemoteOutcome) (scn : ScenarioDict)
    (agents : List ScenarioAgentDict) (t0 : Nat) :
    Except String (APIIntegration × ScenarioSession) :=
  if st.camel_ai_enabled = false then
    (simulate_local_scenario t0 scn agents).map (fun sess => (st, sess))
  else
    match keyGet scn.title "title" with
    | .error e => .error e
    | .ok _ =>
        match run_rounds st oracle scn (pyRange (scn.rounds.getD 3)) agents [] (t0 + 1) with
        | (st2, msgs, clock, none) =>
            .ok (st2,
              { id := t0, scenario := scn, agents := agents, messages := msgs
                status := "completed", error := none
                start_time := t0, end_time := some clock })
        | (st2, msgs, _, some e) =>
            .ok (st2,
              { id := t0, scenario := scn, agents := agents, messages := msgs
                status := "error", error := some e
                start_time := t0, end_time := none })

/-- A throwaway conversation entry used to build concrete agent states. -/
def exampleConversation : Conversation :=
  { task := { type_ := none, description := none, context := none }
    prompt := ""
    result := { success := true, content := "", api_used := "local", model := "local-ai" }
    processed := ""
    timestamp := 0 }

/-- A concrete agent whose error log just received its 11th entry and whose
conversation history just received its 21st entry. -/
def exampleAgent : AgentState :=
  { config := { name := "a", type_ := "t", capabilities := [], api_preference := "auto" }
    status := "active"
    tasks_completed := 0
    last_activity := 0
    errors := List.replicate 11 "e"
    conversations := List.replicate 21 exampleConversation }

/-! ## Sequences of router calls -/

/-- The inputs of one completed `generate_response` call: the two network
oracles, the prompt and the agent configuration. -/
structure CallInput where
  camelOutcome : RemoteOutcome
  llm7Outcome : RemoteOutcome
  prompt : String
  cfg : AgentConfig
  deriving Repr, DecidableEq

/-- Run a sequence of completed `generate_response` calls, threading the
router state. -/
def runCalls (s : APIIntegration) : List CallInput → APIIntegration
  | [] => s
  | c :: rest =>
      runCalls (generate_response s c.camelOutcome c.llm7Outcome c.prompt c.cfg).1 rest

/-- The counters of a tier are balanced when `requests == success + errors`. -/
def TierStats.balanced (t : TierStats) : Prop :=
  t.requests = t.success + t.errors

/-- All three tiers are balanced. -/
def balancedAll (s : APIIntegration) : Prop :=
  s.stats.camel_ai.balanced ∧ s.stats.llm7.balanced ∧ s.stats.localTier.balanced

/-- The invariant that does hold on every trace: each completed call
increments `requests` once and increments `success`, `errors`, or (on a
malformed 200 body) both, exactly once each. -/
def TierStats.bounded (t : TierStats) : Prop :=
  t.requests ≤ t.success + t.errors ∧ t.success + t.errors ≤ 2 * t.requests

/-- All three tiers satisfy the counter bounds. -/
def boundedAll (s : APIIntegration) : Prop :=
  s.stats.camel_ai.bounded ∧ s.stats.llm7.bounded ∧ s.stats.localTier.bounded

/-- Pointwise order on the counters of one tier. -/
def TierStats.le (t1 t2 : TierStats) : Prop :=
  t1.requests ≤ t2.requests ∧ t1.success ≤ t2.success ∧ t1.errors ≤ t2.errors

/-- Pointwise order on all nine counters: every counter of `s1` is at most
the corresponding counter of `s2`. -/
def statsLe (s1 s2 : Stats) : Prop :=
  s1.camel_ai.le s2.camel_ai ∧ s1.llm7.le s2.llm7 ∧ s1.localTier.le s2.localTier

/-! ## Theorems -/

/-- C2: `select_api` resolves a preference exactly as specified: `camel`
(primary) or `llm7` (secondary) selects that tier iff its reachability flag
is true and otherwise selects local (never the other remote tier); `auto`
prefers camel_ai if reachable, else llm7 if reachable, else local; `local`
always selects local (as does any other string, via the final else). -/
theorem select_api_resolves_preference (s : APIIntegration) :
    (select_api s "camel" = if s.camel_ai_enabled then "camel_ai" else "local") ∧
    (select_api s "llm7" = if s.llm7_enabled then "llm7" else "local") ∧
    (select_api s "auto" =
      if s.camel_ai_enabled then "camel_ai"
      else if s.llm7_enabled then "llm7" else "local") ∧
    (select_api s "local" = "local") := by
  obtain ⟨c, l, st⟩ := s
  cases c <;> cases l <;> simp [select_api]

/-- C1: with both remote tiers unreachable, `generate_response` succeeds
via the local tier for every prompt, configuration and preference string —
it never reports overall failure. -/
theorem generate_response_all_remote_down (s : APIIntegration)
    (co lo : RemoteOutcome) (prompt : String) (cfg : AgentConfig)
    (hc : s.camel_ai_enabled = false) (hl : s.llm7_enabled = false) :
    (generate_response s co lo prompt cfg).2.success = true ∧
    (generate_response s co lo prompt cfg).2.api_used = "local" := by
  have hsel : select_api s cfg.api_preference = "local" := by
    simp [select_api, hc, hl]
  simp [generate_response, hsel, use_local]

/-- Witness for C1 at a concrete state and configuration. -/
theorem generate_response_all_remote_down_witness :
    (generate_response (APIIntegration.init false false) (.ok "x") (.ok "y") "p"
      { name := "a", type_ := "t", capabilities := [], api_preference := "camel" }).2.success
        = true ∧
    (generate_response (APIIntegration.init false false) (.ok "x") (.ok "y") "p"
      { name := "a", type_ := "t", capabilities := [], api_preference := "camel" }).2.api_used
        = "local" :=
  generate_response_all_remote_down _ _ _ _ _ rfl rfl

/-- C4: when the tier selected by `select_api` is remote and its call fails
(non-2xx or exception), `generate_response` increments the error
counter and retries exactly once against the local tier instead of
propagating, so the overall call still succeeds. -/
theorem remote_failure_falls_back_to_local (s : APIIntegration)
    (co lo : RemoteOutcome) (prompt : String) (cfg : AgentConfig) :
    (select_api s cfg.api_preference = "camel_ai" → co.isFail = true →
      (generate_response s co lo prompt cfg).2.success = true ∧
      (generate_response s co lo prompt cfg).2.api_used = "local" ∧
      (generate_response s co lo prompt cfg).1.stats.camel_ai.errors
        = s.stats.camel_ai.errors + 1 ∧
      (generate_response s co lo prompt cfg).1.stats.camel_ai.requests
        = s.stats.camel_ai.requests + 1 ∧
      (generate_response s co lo prompt cfg).1.stats.localTier.requests
        = s.stats.localTier.requests + 1 ∧
      (generate_response s co lo prompt cfg).1.stats.localTier.success
        = s.stats.localTier.success + 1) ∧
    (select_api s cfg.api_preference = "llm7" → lo.isFail = true →
      (generate_response s co lo prompt cfg).2.success = true ∧
      (generate_response s co lo prompt cfg).2.api_used = "local" ∧
      (generate_response s co lo prompt cfg).1.stats.llm7.errors
        = s.stats.llm7.errors + 1 ∧
      (generate_response s co lo prompt cfg).1.stats.llm7.requests
        = s.stats.llm7.requests + 1 ∧
      (generate_response s co lo prompt cfg).1.stats.localTier.requests
        = s.stats.localTier.requests + 1 ∧
      (generate_response s co lo prompt cfg).1.stats.localTier.success
        = s.stats.localTier.success + 1) := by
  constructor
  · intro hsel hfail
    cases co with
    | ok c => simp [RemoteOutcome.isFail] at hfail
    | okMalformed m => simp [generate_response, hsel, use_camel_ai, use_local]
    | httpError st => simp [generate_response, hsel, use_camel_ai, use_local]
    | exn m => simp [generate_response, hsel, use_camel_ai, use_local]
  · intro hsel hfail
    cases lo with
    | ok c => simp [RemoteOutcome.isFail] at hfail
    | okMalformed m => simp [generate_response, hsel, use_llm7, use_local]
    | httpError st => simp [generate_response, hsel, use_llm7, use_local]
    | exn m => simp [generate_response, hsel, use_llm7, use_local]

/-- Witness for C4: a failing camel call from a camel-preferring agent and a
failing llm7 call from an llm7-preferring agent, on concrete states. -/
theorem remote_failure_falls_back_to_local_witness :
    ((generate_response (APIIntegration.init true false) (.exn "boom") (.ok "y") "p"
        { name := "a", type_ := "t", capabilities := [], api_preference := "camel" }).2.success
          = true ∧
     (generate_response (APIIntegration.init true false) (.exn "boom") (.ok "y") "p"
        { name := "a", type_ := "t", capabilities := [], api_preference := "camel" }).2.api_used
          = "local" ∧
     (generate_response (APIIntegration.init true false) (.exn "boom") (.ok "y") "p"
        { name := "a", type_ := "t", capabilities := [], api_preference := "camel" }).1.stats.camel_ai.errors
          = (APIIntegration.init true false).stats.camel_ai.errors + 1 ∧
     (generate_response (APIIntegration.init true false) (.exn "boom") (.ok "y") "p"
        { name := "a", type_ := "t", capabilities := [], api_preference := "camel" }).1.stats.camel_ai.requests
          = (APIIntegration.init true false).stats.camel_ai.requests + 1 ∧
     (generate_response (APIIntegration.init true false) (.exn "boom") (.ok "y") "p"
        { name := "a", type_ := "t", capabilities := [], api_preference := "camel" }).1.stats.localTier.requests
          = (APIIntegration.init true false).stats.localTier.requests + 1 ∧
     (generate_response (APIIntegration.init true false) (.exn "boom") (.ok "y") "p"
        { name := "a", type_ := "t", capabilities := [], api_preference := "camel" }).1.stats.localTier.success
          = (APIIntegration.init true false).stats.localTier.success + 1) ∧
    ((generate_response (APIIntegration.init false true) (.ok "x") (.httpError 500) "p"
        { name := "a", type_ := "t", capabilities := [], api_preference := "llm7" }).2.success
          = true ∧
     (generate_response (APIIntegration.init false true) (.ok "x") (.httpError 500) "p"
        { name := "a", type_ := "t", capabilities := [], api_preference := "llm7" }).2.api_used
          = "local" ∧
     (generate_response (APIIntegration.init false true) (.ok "x") (.httpError 500) "p"
        { name := "a", type_ := "t", capabilities := [], api_preference := "llm7" }).1.stats.llm7.errors
          = (APIIntegration.init false true).stats.llm7.errors + 1 ∧
     (generate_response (APIIntegration.init false true) (.ok "x") (.httpError 500) "p"
        { name := "a", type_ := "t", capabilities := [], api_preference := "llm7" }).1.stats.llm7.requests
          = (APIIntegration.init false true).stats.llm7.requests + 1 ∧
     (generate_response (APIIntegration.init false true) (.ok "x") (.httpError 500) "p"
        { name := "a", type_ := "t", capabilities := [], api_preference := "llm7" }).1.stats.localTier.requests
          = (APIIntegration.init false true).stats.localTier.requests + 1 ∧
     (generate_response (APIIntegration.init false true) (.ok "x") (.httpError 500) "p"
        { name := "a", type_ := "t", capabilities := [], api_preference := "llm7" }).1.stats.localTier.success
          = (APIIntegration.init false true).stats.localTier.success + 1) :=
  ⟨(remote_failure_falls_back_to_local _ _ _ _ _).1 rfl rfl,
   (remote_failure_falls_back_to_local _ _ _ _ _).2 rfl rfl⟩

/-- One completed `generate_response` call whose remote outcomes are not
malformed 200 bodies preserves per-tier balance: the selected tier gains
one request and exactly one of success/error, and a failed remote attempt
adds one balanced local call. (A malformed 200 body instead increments
both success and errors and breaks the balance — see the C3
counterexample.) -/
theorem gen_balanced (s : APIIntegration) (co lo : RemoteOutcome) (p : String)
    (cfg : AgentConfig) (h : balancedAll s)
    (hco : co.isMalformed = false) (hlo : lo.isMalformed = false) :
    balancedAll (generate_response s co lo p cfg).1 := by
  obtain ⟨h1, h2, h3⟩ := h
  simp only [TierStats.balanced] at h1 h2 h3
  by_cases hc : select_api s cfg.api_preference = "camel_ai"
  · cases co with
    | okMalformed m => simp [RemoteOutcome.isMalformed] at hco
    | ok c =>
        simp [generate_response, hc, use_camel_ai, use_local, balancedAll,
          TierStats.balanced]
        omega
    | httpError st =>
        simp [generate_response, hc, use_camel_ai, use_local, balancedAll,
          TierStats.balanced]
        omega
    | exn m =>
        simp [generate_response, hc, use_camel_ai, use_local, balancedAll,
          TierStats.balanced]
        omega
  · by_cases hl : select_api s cfg.api_preference = "llm7"
    · cases lo with
      | okMalformed m => simp [RemoteOutcome.isMalformed] at hlo
      | ok c =>
          simp [generate_response, hc, hl, use_llm7, use_local, balancedAll,
            TierStats.balanced]
          omega
      | httpError st =>
          simp [generate_response, hc, hl, use_llm7, use_local, balancedAll,
            TierStats.balanced]
          omega
      | exn m =>
          simp [generate_response, hc, hl, use_llm7, use_local, balancedAll,
            TierStats.balanced]
          omega
    · simp [generate_response, hc, hl, use_local, balancedAll,
        TierStats.balanced]
      omega

/-- Every completed `generate_response` call — malformed 200 bodies
included — preserves the counter bounds: it adds one request to each tier
it touches and one or two to that tier's success+errors sum. -/
theorem gen_bounded (s : APIIntegration) (co lo : RemoteOutcome) (p : String)
    (cfg : AgentConfig) (h : boundedAll s) :
    boundedAll (generate_response s co lo p cfg).1 := by
  obtain ⟨h1, h2, h3⟩ := h
  simp only [TierStats.bounded] at h1 h2 h3
  by_cases hc : select_api s cfg.api_preference = "camel_ai"
  · cases co <;>
      simp [generate_response, hc, use_camel_ai, use_local, boundedAll,
        TierStats.bounded] <;> omega
  · by_cases hl : select_api s cfg.api_preference = "llm7"
    · cases lo <;>
        simp [generate_response, hc, hl, use_llm7, use_local, boundedAll,
          TierStats.bounded] <;> omega
    · simp [generate_response, hc, hl, use_local, boundedAll,
        TierStats.bounded]
      omega

/-- One completed `generate_response` call never decreases any counter. -/
theorem gen_mono (s : APIIntegration) (co lo : RemoteOutcome) (p : String)
    (cfg : AgentConfig) : statsLe s.stats (generate_response s co lo p cfg).1.stats := by
  by_cases hc : select_api s cfg.api_preference = "camel_ai"
  · cases co <;>
      simp [generate_response, hc, use_camel_ai, use_local, statsLe,
        TierStats.le]
  · by_cases hl : select_api s cfg.api_preference = "llm7"
    · cases lo <;>
        simp [generate_response, hc, hl, use_llm7, use_local, statsLe,
          TierStats.le]
    · simp [generate_response, hc, hl, use_local, statsLe, TierStats.le]

/-- Transitivity of `statsLe`. -/
theorem statsLe_trans {a b c : Stats} (h1 : statsLe a b) (h2 : statsLe b c) :
    statsLe a c := by
  simp only [statsLe, TierStats.le] at *
  omega

/-- Balance is preserved along any sequence of calls in which no remote
call returned a malformed 200 body. -/
theorem runCalls_balanced (calls : List CallInput) (s : APIIntegration)
    (h : balancedAll s)
    (hm : ∀ c ∈ calls, c.camelOutcome.isMalformed = false ∧
            c.llm7Outcome.isMalformed = false) :
    balancedAll (runCalls s calls) := by
  induction calls generalizing s with
  | nil => exact h
  | cons c rest ih =>
      exact ih _
        (gen_balanced _ _ _ _ _ h (hm c (List.mem_cons_self c rest)).1
          (hm c (List.mem_cons_self c rest)).2)
        (fun c2 hc2 => hm c2 (List.mem_cons_of_mem c hc2))

/-- The counter bounds are preserved along any sequence of calls. -/
theorem runCalls_bounded (calls : List CallInput) (s : APIIntegration)
    (h : boundedAll s) : boundedAll (runCalls s calls) := by
  induction calls generalizing s with
  | nil => exact h
  | cons c rest ih => exact ih _ (gen_bounded _ _ _ _ _ h)

/-- Counters are monotone along any sequence of calls. -/
theorem runCalls_mono (calls : List CallInput) (s : APIIntegration) :
    statsLe s.stats (runCalls s calls).stats := by
  induction calls generalizing s with
  | nil => simp [runCalls, statsLe, TierStats.le]
  | cons c rest ih =>
      exact statsLe_trans (gen_mono s c.camelOutcome c.llm7Outcome c.prompt c.cfg) (ih _)

/-- C3 counterexample: a 200 response whose body lacks the expected
`choices` key increments BOTH `success` (line 180, before the return dict
subscripts the body) and `errors` (line 192, in the `except` that catches
the subscript failure) of the camel tier within one completed
`generate_response` call. After that single call the camel counters are
requests = 1, success = 1, errors = 1, so `requests == success + errors`
fails: 1 is not 1 + 1. -/
theorem stats_balance_counterexample :
    (runCalls (APIIntegration.init true false)
        [⟨.okMalformed "\x27choices\x27", .ok "y", "p",
          { name := "a", type_ := "t", capabilities := [],
            api_preference := "camel" }⟩]).stats.camel_ai
      = { requests := 1, success := 1, errors := 1 } ∧
    ¬ ((runCalls (APIIntegration.init true false)
        [⟨.okMalformed "\x27choices\x27", .ok "y", "p",
          { name := "a", type_ := "t", capabilities := [],
            api_preference := "camel" }⟩]).stats.camel_ai.requests
      = (runCalls (APIIntegration.init true false)
        [⟨.okMalformed "\x27choices\x27", .ok "y", "p",
          { name := "a", type_ := "t", capabilities := [],
            api_preference := "camel" }⟩]).stats.camel_ai.success
        + (runCalls (APIIntegration.init true false)
        [⟨.okMalformed "\x27choices\x27", .ok "y", "p",
          { name := "a", type_ := "t", capabilities := [],
            api_preference := "camel" }⟩]).stats.camel_ai.errors) :=
  ⟨rfl, by decide⟩

/-- C3 (amended): every counter only ever increases, and per tier
`requests ≤ success + errors ≤ 2 * requests` holds after any sequence of
completed `generate_response` calls from a freshly initialized router; the
exact equality `requests == success + errors` holds after any such
sequence in which no remote call returned a 200 response with a malformed
body — that path increments both success and errors in one call and breaks
the equality (see the counterexample). -/
theorem stats_counters_invariant (camel llm7 : Bool) (calls : List CallInput) :
    ((∀ c ∈ calls, c.camelOutcome.isMalformed = false ∧
        c.llm7Outcome.isMalformed = false) →
      balancedAll (runCalls (APIIntegration.init camel llm7) calls)) ∧
    boundedAll (runCalls (APIIntegration.init camel llm7) calls) ∧
    (∀ s : APIIntegration, statsLe s.stats (runCalls s calls).stats) :=
  ⟨fun hm => runCalls_balanced calls _
      (by simp [APIIntegration.init, balancedAll, TierStats.balanced]) hm,
   runCalls_bounded calls _
      (by simp [APIIntegration.init, boundedAll, TierStats.bounded]),
   fun s => runCalls_mono calls s⟩

/-- Witness for the amended C3: a concrete two-call sequence without
malformed bodies (one camel success, one camel failure with local retry)
is balanced, bounded and monotone. -/
theorem stats_counters_invariant_witness :
    balancedAll (runCalls (APIIntegration.init true false)
      [⟨.ok "hi", .httpError 500, "p",
        { name := "a", type_ := "t", capabilities := [],
          api_preference := "camel" }⟩,
       ⟨.exn "boom", .ok "y", "q",
        { name := "b", type_ := "t", capabilities := [],
          api_preference := "auto" }⟩]) ∧
    boundedAll (runCalls (APIIntegration.init true false)
      [⟨.ok "hi", .httpError 500, "p",
        { name := "a", type_ := "t", capabilities := [],
          api_preference := "camel" }⟩,
       ⟨.exn "boom", .ok "y", "q",
        { name := "b", type_ := "t", capabilities := [],
          api_preference := "auto" }⟩]) ∧
    statsLe (APIIntegration.init true false).stats
      (runCalls (APIIntegration.init true false)
      [⟨.ok "hi", .httpError 500, "p",
        { name := "a", type_ := "t", capabilities := [],
          api_preference := "camel" }⟩,
       ⟨.exn "boom", .ok "y", "q",
        { name := "b", type_ := "t", capabilities := [],
          api_preference := "auto" }⟩]).stats :=
  ⟨(stats_counters_invariant true false
      [⟨.ok "hi", .httpError 500, "p",
        { name := "a", type_ := "t", capabilities := [],
          api_preference := "camel" }⟩,
       ⟨.exn "boom", .ok "y", "q",
        { name := "b", type_ := "t", capabilities := [],
          api_preference := "auto" }⟩]).1 (by decide),
   (stats_counters_invariant true false
      [⟨.ok "hi", .httpError 500, "p",
        { name := "a", type_ := "t", capabilities := [],
          api_preference := "camel" }⟩,
       ⟨.exn "boom", .ok "y", "q",
        { name := "b", type_ := "t", capabilities := [],
          api_preference := "auto" }⟩]).2.1,
   (stats_counters_invariant true false
      [⟨.ok "hi", .httpError 500, "p",
        { name := "a", type_ := "t", capabilities := [],
          api_preference := "camel" }⟩,
       ⟨.exn "boom", .ok "y", "q",
        { name := "b", type_ := "t", capabilities := [],
          api_preference := "auto" }⟩]).2.2
      (APIIntegration.init true false)⟩

/-- Applying `takeLast` to an append keeps exactly the final segment. -/
theorem takeLast_append (xs ys : List α) : takeLast ys.length (xs ++ ys) = ys := by
  simp [takeLast, Nat.add_sub_cancel, List.drop_left]

/-- C5 counterexample: no single maintenance pass performs both trims. The
enhanced pass leaves an 11-entry error log at 11 entries (the claim says 5),
and the base pass leaves a 21-entry conversation history at 21 entries (the
claim says 10). -/
theorem maintenance_claim_counterexample :
    (enhanced_maintenance_pass [exampleAgent]).map (fun a => a.errors.length) = [11] ∧
    ¬ (enhanced_maintenance_pass [exampleAgent]).map (fun a => a.errors.length) = [5] ∧
    (base_maintenance_pass [exampleAgent]).map (fun a => a.conversations.length) = [21] ∧
    ¬ (base_maintenance_pass [exampleAgent]).map (fun a => a.conversations.length) = [10] := by
  refine ⟨by decide, by decide, ?_, ?_⟩ <;>
    simp [base_maintenance_pass, base_maintenance, exampleAgent, takeLast]

/-- C5 (amended): the two trims live in different systems. The enhanced
system maintenance pass trims only the conversation history — to exactly
its last 10 entries once it exceeds 20 — and leaves the error log, status
and task counter untouched; the base system maintenance pass trims only
the error log — to exactly its last 5 entries once it exceeds 10 — and
leaves the conversation history, status and task counter untouched. -/
theorem maintenance_trims_split (a : AgentState) (cs ds : List Conversation)
    (xs ys : List String) :
    ((enhanced_maintenance a).errors = a.errors ∧
     (enhanced_maintenance a).status = a.status ∧
     (enhanced_maintenance a).tasks_completed = a.tasks_completed) ∧
    (a.conversations = cs ++ ds → ds.length = 10 → a.conversations.length > 20 →
       (enhanced_maintenance a).conversations = ds) ∧
    (a.conversations.length ≤ 20 →
       (enhanced_maintenance a).conversations = a.conversations) ∧
    ((base_maintenance a).conversations = a.conversations ∧
     (base_maintenance a).status = a.status ∧
     (base_maintenance a).tasks_completed = a.tasks_completed) ∧
    (a.errors = xs ++ ys → ys.length = 5 → a.errors.length > 10 →
       (base_maintenance a).errors = ys) ∧
    (a.errors.length ≤ 10 → (base_maintenance a).errors = a.errors) := by
  refine ⟨?_, ?_, ?_, ?_, ?_, ?_⟩
  · unfold enhanced_maintenance
    split <;> simp
  · intro h1 h2 h3
    unfold enhanced_maintenance
    rw [if_pos h3, h1, ← h2, takeLast_append]
  · intro h
    unfold enhanced_maintenance
    rw [if_neg (by omega)]
  · unfold base_maintenance
    split <;> simp
  · intro h1 h2 h3
    unfold base_maintenance
    rw [if_pos h3, h1, ← h2, takeLast_append]
  · intro h
    unfold base_maintenance
    rw [if_neg (by omega)]

/-- Witness for the amended C5 on the concrete agent with 11 errors and 21
conversations: the enhanced pass keeps all 11 errors and trims the
conversations to their last 10; the base pass keeps all 21 conversations
and trims the errors to their last 5. -/
theorem maintenance_trims_split_witness :
    (enhanced_maintenance exampleAgent).errors = List.replicate 11 "e" ∧
    (enhanced_maintenance exampleAgent).conversations
      = List.replicate 10 exampleConversation ∧
    (base_maintenance exampleAgent).conversations
      = List.replicate 21 exampleConversation ∧
    (base_maintenance exampleAgent).errors = List.replicate 5 "e" :=
  ⟨(maintenance_trims_split exampleAgent [] [] [] []).1.1,
   (maintenance_trims_split exampleAgent
      (List.replicate 11 exampleConversation) (List.replicate 10 exampleConversation)
      [] []).2.1 rfl rfl (by decide),
   (maintenance_trims_split exampleAgent [] [] [] []).2.2.2.1.1,
   (maintenance_trims_split exampleAgent [] []
      (List.replicate 6 "e") (List.replicate 5 "e")).2.2.2.2.1 rfl rfl (by decide)⟩

/-- C6: a scenario run with `rounds = 3` and three participants produces
exactly nine transcript messages in round-major order —
(r1,p1),(r1,p2),(r1,p3),(r2,p1),… — with no reordering or deduplication,
each recording the round number, agent name, role, content, backend used
and a timestamp. The first conjunct pins the whole local-simulation
session; the second shows the same count and round-major (round, agent,
role) order on the Camel-AI round loop for any router state and network
oracle. -/
theorem scenario_rounds3_transcript (t0 : Nat) (ttl : Option String)
    (dsc : String) (rnds : Option Nat) (n1 r1 n2 r2 n3 r3 : String)
    (ty1 ty2 ty3 : Option String) (c1 c2 c3 : Option (List String))
    (h : rnds.getD 3 = 3) :
    simulate_local_scenario t0 ⟨ttl, some dsc, rnds⟩
      [⟨some n1, some r1, ty1, c1⟩, ⟨some n2, some r2, ty2, c2⟩,
       ⟨some n3, some r3, ty3, c3⟩]
    = .ok
      { id := t0
        scenario := ⟨ttl, some dsc, rnds⟩
        agents :=
          [⟨some n1, some r1, ty1, c1⟩, ⟨some n2, some r2, ty2, c2⟩,
           ⟨some n3, some r3, ty3, c3⟩]
        messages :=
          [ ⟨1, n1, r1, "I believe we should take a systematic approach to this challenge..."
              ++ " (Local simulation by " ++ n1 ++ ")", "local_simulation", t0 + 1⟩
          , ⟨1, n2, r2, "I believe we should take a systematic approach to this challenge..."
              ++ " (Local simulation by " ++ n2 ++ ")", "local_simulation", t0 + 2⟩
          , ⟨1, n3, r3, "I believe we should take a systematic approach to this challenge..."
              ++ " (Local simulation by " ++ n3 ++ ")", "local_simulation", t0 + 3⟩
          , ⟨2, n1, r1, "From my analysis, the key factors to consider are..."
              ++ " (Local simulation by " ++ n1 ++ ")", "local_simulation", t0 + 4⟩
          , ⟨2, n2, r2, "From my analysis, the key factors to consider are..."
              ++ " (Local simulation by " ++ n2 ++ ")", "local_simulation", t0 + 5⟩
          , ⟨2, n3, r3, "From my analysis, the key factors to consider are..."
              ++ " (Local simulation by " ++ n3 ++ ")", "local_simulation", t0 + 6⟩
          , ⟨3, n1, r1, "I propose we divide the problem into manageable components..."
              ++ " (Local simulation by " ++ n1 ++ ")", "local_simulation", t0 + 7⟩
          , ⟨3, n2, r2, "I propose we divide the problem into manageable components..."
              ++ " (Local simulation by " ++ n2 ++ ")", "local_simulation", t0 + 8⟩
          , ⟨3, n3, r3, "I propose we divide the problem into manageable components..."
              ++ " (Local simulation by " ++ n3 ++ ")", "local_simulation", t0 + 9⟩ ]
        status := "completed"
        error := none
        start_time := t0
        end_time := some (t0 + 10) } ∧
    (∀ (st : APIIntegration) (oracle : Nat → Nat → RemoteOutcome) (clock : Nat),
      ((run_rounds st oracle ⟨ttl, some dsc, rnds⟩ (pyRange (rnds.getD 3))
          [⟨some n1, some r1, ty1, c1⟩, ⟨some n2, some r2, ty2, c2⟩,
           ⟨some n3, some r3, ty3, c3⟩] [] clock).2.1).map
        (fun m => (m.round, m.agent, m.role))
        = [(1, n1, r1), (1, n2, r2), (1, n3, r3),
           (2, n1, r1), (2, n2, r2), (2, n3, r3),
           (3, n1, r1), (3, n2, r2), (3, n3, r3)] ∧
      (run_rounds st oracle ⟨ttl, some dsc, rnds⟩ (pyRange (rnds.getD 3))
          [⟨some n1, some r1, ty1, c1⟩, ⟨some n2, some r2, ty2, c2⟩,
           ⟨some n3, some r3, ty3, c3⟩] [] clock).2.2.2 = none) := by
  constructor
  · unfold simulate_local_scenario
    rw [show (ScenarioDict.mk ttl (some dsc) rnds).rounds.getD 3 = 3 from h]
    rfl
  · intro st oracle clock
    rw [h]
    exact ⟨rfl, rfl⟩

/-- Witness for C6 at three concrete participants. -/
theorem scenario_rounds3_transcript_witness :
    simulate_local_scenario 0 ⟨some "T", some "D", some 3⟩
      [⟨some "Alice", some "dev", none, none⟩, ⟨some "Bob", some "design", none, none⟩,
       ⟨some "Carol", some "sec", none, none⟩]
    = .ok
      { id := 0
        scenario := ⟨some "T", some "D", some 3⟩
        agents :=
          [⟨some "Alice", some "dev", none, none⟩, ⟨some "Bob", some "design", none, none⟩,
           ⟨some "Carol", some "sec", none, none⟩]
        messages :=
          [ ⟨1, "Alice", "dev", "I believe we should take a systematic approach to this challenge..."
              ++ " (Local simulation by " ++ "Alice" ++ ")", "local_simulation", 1⟩
          , ⟨1, "Bob", "design", "I believe we should take a systematic approach to this challenge..."
              ++ " (Local simulation by " ++ "Bob" ++ ")", "local_simulation", 2⟩
          , ⟨1, "Carol", "sec", "I believe we should take a systematic approach to this challenge..."
              ++ " (Local simulation by " ++ "Carol" ++ ")", "local_simulation", 3⟩
          , ⟨2, "Alice", "dev", "From my analysis, the key factors to consider are..."
              ++ " (Local simulation by " ++ "Alice" ++ ")", "local_simulation", 4⟩
          , ⟨2, "Bob", "design", "From my analysis, the key factors to consider are..."
              ++ " (Local simulation by " ++ "Bob" ++ ")", "local_simulation", 5⟩
          , ⟨2, "Carol", "sec", "From my analysis, the key factors to consider are..."
              ++ " (Local simulation by " ++ "Carol" ++ ")", "local_simulation", 6⟩
          , ⟨3, "Alice", "dev", "I propose we divide the problem into manageable components..."
              ++ " (Local simulation by " ++ "Alice" ++ ")", "local_simulation", 7⟩
          , ⟨3, "Bob", "design", "I propose we divide the problem into manageable components..."
              ++ " (Local simulation by " ++ "Bob" ++ ")", "local_simulation", 8⟩
          , ⟨3, "Carol", "sec", "I propose we divide the problem into manageable components..."
              ++ " (Local simulation by " ++ "Carol" ++ ")", "local_simulation", 9⟩ ]
        status := "completed"
        error := none
        start_time := 0
        end_time := some 10 } ∧
    ((run_rounds (APIIntegration.init true false) (fun _ _ => RemoteOutcome.ok "hi")
        ⟨some "T", some "D", some 3⟩ (pyRange ((some 3 : Option Nat).getD 3))
        [⟨some "Alice", some "dev", none, none⟩, ⟨some "Bob", some "design", none, none⟩,
         ⟨some "Carol", some "sec", none, none⟩] [] 1).2.1).map
      (fun m => (m.round, m.agent, m.role))
      = [(1, "Alice", "dev"), (1, "Bob", "design"), (1, "Carol", "sec"),
         (2, "Alice", "dev"), (2, "Bob", "design"), (2, "Carol", "sec"),
         (3, "Alice", "dev"), (3, "Bob", "design"), (3, "Carol", "sec")] ∧
    (run_rounds (APIIntegration.init true false) (fun _ _ => RemoteOutcome.ok "hi")
        ⟨some "T", some "D", some 3⟩ (pyRange ((some 3 : Option Nat).getD 3))
        [⟨some "Alice", some "dev", none, none⟩, ⟨some "Bob", some "design", none, none⟩,
         ⟨some "Carol", some "sec", none, none⟩] [] 1).2.2.2 = none :=
  ⟨(scenario_rounds3_transcript 0 (some "T") "D" (some 3) "Alice" "dev"
      "Bob" "design" "Carol" "sec" none none none none none none rfl).1,
   ((scenario_rounds3_transcript 0 (some "T") "D" (some 3) "Alice" "dev"
      "Bob" "design" "Carol" "sec" none none none none none none rfl).2
      (APIIntegration.init true false) (fun _ _ => RemoteOutcome.ok "hi") 1).1,
   ((scenario_rounds3_transcript 0 (some "T") "D" (some 3) "Alice" "dev"
      "Bob" "design" "Carol" "sec" none none none none none none rfl).2
      (APIIntegration.init true false) (fun _ _ => RemoteOutcome.ok "hi") 1).2⟩

/-- C7 counterexample: on the local-simulation path a mid-scenario exception
is NOT converted into a session with status `error`. With two participants
whose first is well-formed and whose second lacks the `role` key, the first
round-1 message is appended and then the `KeyError` propagates: the function
returns no session at all, and the partial transcript is discarded rather
than preserved. -/
theorem scenario_error_counterexample :
    simulate_local_scenario 0 ⟨some "T", some "D", some 3⟩
      [⟨some "Alice", some "lead", none, none⟩, ⟨some "Bob", none, none, none⟩]
      = .error (keyErrorText "role") := by
  rfl

/-- The inner participant loop of the Camel-AI path never drops a message
that is already in the transcript. -/
theorem run_agents_keeps_acc (oracle : Nat → Nat → RemoteOutcome)
    (scn : ScenarioDict) (r : Nat) (agents : List ScenarioAgentDict)
    (st : APIIntegration) (idx : Nat) (acc : List Message) (clock : Nat) :
    ∃ tail, (run_agents st oracle scn r idx agents acc clock).2.1 = acc ++ tail := by
  induction agents generalizing st idx acc clock with
  | nil => exact ⟨[], by simp [run_agents]⟩
  | cons ag rest ih =>
      cases h : scenario_turn st (oracle r idx) scn ag r acc clock with
      | error e => exact ⟨[], by simp [run_agents, h]⟩
      | ok p =>
          obtain ⟨st2, msg⟩ := p
          obtain ⟨tail, htail⟩ := ih st2 (idx + 1) (acc ++ [msg]) (clock + 1)
          exact ⟨msg :: tail, by simp [run_agents, h, htail]⟩

/-- The round loop of the Camel-AI path never drops a message that is
already in the transcript: whatever was appended before an exception is
still there when the loop stops. -/
theorem run_rounds_keeps_acc (oracle : Nat → Nat → RemoteOutcome)
    (scn : ScenarioDict) (agents : List ScenarioAgentDict)
    (rounds : List Nat) (st : APIIntegration) (acc : List Message) (clock : Nat) :
    ∃ tail, (run_rounds st oracle scn rounds agents acc clock).2.1 = acc ++ tail := by
  induction rounds generalizing st acc clock with
  | nil => exact ⟨[], by simp [run_rounds]⟩
  | cons r rest ih =>
      obtain ⟨t1, ht1⟩ := run_agents_keeps_acc oracle scn r agents st 0 acc clock
      rcases hra : run_agents st oracle scn r 0 agents acc clock with
        ⟨st2, acc2, clock2, _ | e⟩
      · have ht1b : acc2 = acc ++ t1 := by rw [hra] at ht1; exact ht1
        obtain ⟨t2, ht2⟩ := ih st2 acc2 clock2
        refine ⟨t1 ++ t2, ?_⟩
        simp only [run_rounds, hra]
        rw [ht2, ht1b, List.append_assoc]
      · have ht1b : acc2 = acc ++ t1 := by rw [hra] at ht1; exact ht1
        refine ⟨t1, ?_⟩
        simp only [run_rounds, hra]
        exact ht1b

/-- C7 (amended): on the Camel-AI path (`camel_ai_enabled` true, title key
present) an exception caught mid-rounds yields a returned session with
status `error` carrying the exception text and exactly the messages
appended so far (no end timestamp); normal completion yields status
`completed` with an end timestamp; and the round loop never discards an
appended message. On the local-simulation path (see the counterexample) an
exception instead propagates and no session is returned. -/
theorem scenario_error_session (st : APIIntegration)
    (oracle : Nat → Nat → RemoteOutcome) (scn : ScenarioDict)
    (agents : List ScenarioAgentDict) (t0 : Nat) (ttl : String)
    (hc : st.camel_ai_enabled = true) (ht : scn.title = some ttl) :
    (∀ st2 msgs clock e,
       run_rounds st oracle scn (pyRange (scn.rounds.getD 3)) agents [] (t0 + 1)
         = (st2, msgs, clock, some e) →
       create_multi_agent_scenario st oracle scn agents t0
         = .ok (st2,
            { id := t0, scenario := scn, agents := agents, messages := msgs
              status := "error", error := some e
              start_time := t0, end_time := none })) ∧
    (∀ st2 msgs clock,
       run_rounds st oracle scn (pyRange (scn.rounds.getD 3)) agents [] (t0 + 1)
         = (st2, msgs, clock, none) →
       create_multi_agent_scenario st oracle scn agents t0
         = .ok (st2,
            { id := t0, scenario := scn, agents := agents, messages := msgs
              status := "completed", error := none
              start_time := t0, end_time := some clock })) ∧
    (∀ (st0 : APIIntegration) (rounds : List Nat) (acc : List Message) (clock : Nat),
       ∃ tail, (run_rounds st0 oracle scn rounds agents acc clock).2.1 = acc ++ tail) := by
  refine ⟨?_, ?_, fun st0 rounds acc clock =>
    run_rounds_keeps_acc oracle scn agents rounds st0 acc clock⟩
  · intro st2 msgs clock e h
    simp only [create_multi_agent_scenario, hc, ht, keyGet, h]
    simp
  · intro st2 msgs clock h
    simp only [create_multi_agent_scenario, hc, ht, keyGet, h]
    simp

/-- Witness for the amended C7: a one-round scenario whose second
participant lacks the `role` key, run with camel reachable. The first
message survives into the `error` session. -/
theorem scenario_error_session_witness :
    create_multi_agent_scenario (APIIntegration.init true false)
      (fun _ _ => RemoteOutcome.ok "hi") ⟨some "T", some "D", some 1⟩
      [⟨some "Alice", some "lead", none, none⟩, ⟨some "Bob", none, none, none⟩] 0
    = .ok
      ({ camel_ai_enabled := true, llm7_enabled := false
         stats := { camel_ai := ⟨1, 1, 0⟩, llm7 := ⟨0, 0, 0⟩
                    localTier := ⟨0, 0, 0⟩ } },
       { id := 0
         scenario := ⟨some "T", some "D", some 1⟩
         agents := [⟨some "Alice", some "lead", none, none⟩,
                    ⟨some "Bob", none, none, none⟩]
         messages := [⟨1, "Alice", "lead", "hi", "camel_ai", 1⟩]
         status := "error"
         error := some (keyErrorText "role")
         start_time := 0
         end_time := none }) :=
  (scenario_error_session (APIIntegration.init true false)
      (fun _ _ => RemoteOutcome.ok "hi") ⟨some "T", some "D", some 1⟩
      [⟨some "Alice", some "lead", none, none⟩, ⟨some "Bob", none, none, none⟩]
      0 "T" rfl rfl).1
    _ [⟨1, "Alice", "lead", "hi", "camel_ai", 1⟩] 2 (keyErrorText "role") rfl

/-- Dict assignment followed by lookup of the same key finds the new
entry. -/
theorem lookup_dictSet (k : String) (e : MemoryEntry)
    (l : List (String × MemoryEntry)) : (dictSet k e l).lookup k = some e := by
  induction l with
  | nil => simp [dictSet, List.lookup]
  | cons p rest ih =>
      obtain ⟨k2, v2⟩ := p
      by_cases h : k2 = k
      · simp [dictSet, h, List.lookup]
      · have hbeq : (k == k2) = false := beq_eq_false_iff_ne.mpr (Ne.symm h)
        simp [dictSet, h, List.lookup, ih, hbeq]

/-- C8: for every key and value, `retrieve(k)` after `store(k, v)` returns
exactly `v`, and the entry recorded by `store` carries a type tag equal to
the name of the runtime type of `v` (and the store-time timestamp). -/
theorem store_retrieve_roundtrip (m : MemoryBus) (now : Nat) (k : String)
    (v : PyValue) :
    (m.store now k v).retrieve k = v ∧
    ((m.store now k v).data.lookup k).map (fun e => e.type_) = some v.typeName ∧
    ((m.store now k v).data.lookup k).map (fun e => e.timestamp) = some now := by
  simp [MemoryBus.store, MemoryBus.retrieve, lookup_dictSet]

/-- C9: `initialize` with a raising setup hook returns failure, sets the
status to `error`, appends exactly one entry — the exception text — to the
error log and leaves `tasks_completed` unchanged (0 on a fresh agent);
with a succeeding hook it sets the status to `active` and returns
success. -/
theorem initialize_spec (a : AgentState) (e : String) :
    (BaseAgent.initializeAgent a (.error e)).2 = false ∧
    (BaseAgent.initializeAgent a (.error e)).1.status = "error" ∧
    (BaseAgent.initializeAgent a (.error e)).1.errors = a.errors ++ [e] ∧
    (BaseAgent.initializeAgent a (.error e)).1.tasks_completed = a.tasks_completed ∧
    (∀ (cfg : AgentConfig) (now : Nat),
      (BaseAgent.initializeAgent (AgentState.fresh cfg now) (.error e)).1.tasks_completed = 0) ∧
    (BaseAgent.initializeAgent a (.ok ())).2 = true ∧
    (BaseAgent.initializeAgent a (.ok ())).1.status = "active" := by
  simp [BaseAgent.initializeAgent, AgentState.fresh]

/-- C10: when the routing call raises, `execute_task` returns the `error`
result, leaves the task counter and the conversation history exactly as
they were, appends exactly the exception text to the error log, and changes
only the `last_activity` timestamp; and an error result can only arise that
way, because when the routing call returns, `execute_task` returns the
`success` result. -/
theorem execute_task_error_atomic (a : AgentState) (now : Nat)
    (task : TaskDict) (e : String) (r : GenResult) :
    ((execute_task a now task (.error e)).2 = TaskResult.error e ∧
     (execute_task a now task (.error e)).1.tasks_completed = a.tasks_completed ∧
     (execute_task a now task (.error e)).1.conversations = a.conversations ∧
     (execute_task a now task (.error e)).1.errors = a.errors ++ [e] ∧
     (execute_task a now task (.error e)).1.status = a.status ∧
     (execute_task a now task (.error e)).1.config = a.config ∧
     (execute_task a now task (.error e)).1.last_activity = now) ∧
    (execute_task a now task (.ok r)).2 = TaskResult.success r.content r.api_used := by
  simp [execute_task]

end MyBolt
